import Mathlib

/-!
Shallow embedding of the EPD2 e-paper driver (Sketches/libraries/EPD2/EPD2.cpp).

Bytes are modelled as `Nat` (the C code uses `uint8_t`/`int`; all values stay
in range for the inputs considered).  C `int` arithmetic that can go negative
(the scan-position computation and the sweep loops) is modelled over `Int`
with `Int.div` (C99 truncating division).  `unsigned long` is modelled as a
`Nat` below `2 ^ 32` and `long` as a wrapped 32-bit signed integer, matching
the AVR/ARM Arduino targets the sketch is written for.
-/

set_option maxRecDepth 10000

namespace EPD2

inductive EPD_size where
  | EPD_1_44 | EPD_2_0 | EPD_2_7
  deriving DecidableEq

inductive EPD_stage where
  | EPD_inverse | EPD_normal
  deriving DecidableEq

inductive EPD_status where
  | EPD_OK | EPD_UNSUPPORTED_COG | EPD_PANEL_BROKEN | EPD_DC_FAILED
  deriving DecidableEq

open EPD_size EPD_stage EPD_status

/-- Panel geometry set in the constructor (`EPD_Class::EPD_Class`):
lines per display for each panel size. -/
def lines_per_display : EPD_size → Nat
  | EPD_1_44 => 96
  | EPD_2_0 => 96
  | EPD_2_7 => 176

/-- `dots_per_line` from the constructor. -/
def dots_per_line : EPD_size → Nat
  | EPD_1_44 => 128
  | EPD_2_0 => 200
  | EPD_2_7 => 264

/-- `bytes_per_line` from the constructor (`dots / 8`). -/
def bytes_per_line : EPD_size → Nat
  | EPD_1_44 => 128 / 8
  | EPD_2_0 => 200 / 8
  | EPD_2_7 => 264 / 8

/-- `bytes_per_scan` from the constructor (`lines / 4`). -/
def bytes_per_scan : EPD_size → Nat
  | EPD_1_44 => 96 / 4
  | EPD_2_0 => 96 / 4
  | EPD_2_7 => 176 / 4

/-- `channel_select` byte arrays from the constructor. -/
def channel_select : EPD_size → List Nat
  | EPD_1_44 => [0x72, 0x00, 0x00, 0x00, 0x00, 0x00, 0x0f, 0xff, 0x00]
  | EPD_2_0 => [0x72, 0x00, 0x00, 0x00, 0x00, 0x01, 0xff, 0xe0, 0x00]
  | EPD_2_7 => [0x72, 0x00, 0x00, 0x00, 0x7f, 0xff, 0xfe, 0x00, 0x00]

/-- `EPD_Class::compensation_type`, field order as used by the
initializers in `setFactor` and documented in the spec data model. -/
structure compensation_type where
  stage1_repeat : Int
  stage1_step : Int
  stage1_block : Int
  stage2_repeat : Int
  stage2_t1 : Int
  stage2_t2 : Int
  stage3_repeat : Int
  stage3_step : Int
  stage3_block : Int
  deriving DecidableEq

/-- `compensation_144` table in `setFactor` (index 0, 1, 2; any other index
is unreachable since the offset is always in `{0,1,2}`). -/
def compensation_144 : Nat → compensation_type
  | 0 => ⟨2, 6, 42, 4, 392, 392, 2, 6, 42⟩
  | 1 => ⟨4, 2, 16, 4, 155, 155, 4, 2, 16⟩
  | _ => ⟨4, 2, 16, 4, 155, 155, 4, 2, 16⟩

/-- `compensation_200` table in `setFactor`. -/
def compensation_200 : Nat → compensation_type
  | 0 => ⟨2, 6, 42, 4, 392, 392, 2, 6, 42⟩
  | 1 => ⟨2, 2, 48, 4, 196, 196, 2, 2, 48⟩
  | _ => ⟨4, 2, 48, 4, 196, 196, 4, 2, 48⟩

/-- `compensation_270` table in `setFactor`. -/
def compensation_270 : Nat → compensation_type
  | 0 => ⟨2, 8, 64, 4, 392, 392, 2, 8, 64⟩
  | 1 => ⟨2, 8, 64, 4, 196, 196, 2, 8, 64⟩
  | _ => ⟨4, 8, 64, 4, 196, 196, 4, 8, 64⟩

/-- The three-way threshold test of `EPD_Class::setFactor`. -/
def temperature_offset (temperature : Int) : Nat :=
  if temperature < 10 then 0
  else if temperature > 40 then 2
  else 1

/-- `EPD_Class::setFactor`: computes the temperature offset and selects the
compensation band for the configured panel size.  Returns the pair
(`temperature_offset`, `*compensation`) of driver fields it assigns. -/
def setFactor (size : EPD_size) (temperature : Int) : Nat × compensation_type :=
  let offs := temperature_offset temperature
  match size with
  | EPD_1_44 => (offs, compensation_144 offs)
  | EPD_2_0 => (offs, compensation_200 offs)
  | EPD_2_7 => (offs, compensation_270 offs)

/-- Modelled from the spec: the declaration of `setFactor` lives in
`EPD2.h`, which is not under `src/`; the spec states the temperature
argument defaults to 25 (`setFactor(temperature: integer, defaulting
to 25)`), and the constructor calls `setFactor()` with no argument. -/
def setFactor_default_temperature : Int := 25

end EPD2

namespace EPD2

open EPD_size EPD_stage EPD_status

/-- Odd-pixel encoding of one input byte in `EPD_Class::line`
(`pixels = data[b-1] & 0x55` followed by the stage switch). -/
def encode_odd (stage : EPD_stage) (x : Nat) : Nat :=
  let pixels := x &&& 0x55
  match stage with
  | EPD_inverse => 0xaa ||| (pixels ^^^ 0x55)
  | EPD_normal => 0xaa ||| pixels

/-- Even-pixel encoding of one input byte in `EPD_Class::line`
(`pixels = data[b] & 0xaa`, the stage switch, then the `p1..p4`
bit-pair reshuffle). -/
def encode_even (stage : EPD_stage) (x : Nat) : Nat :=
  let pixels := x &&& 0xaa
  let pixels :=
    match stage with
    | EPD_inverse => 0xaa ||| ((pixels ^^^ 0xaa) >>> 1)
    | EPD_normal => 0xaa ||| (pixels >>> 1)
  let p1 := (pixels >>> 6) &&& 0x03
  let p2 := (pixels >>> 4) &&& 0x03
  let p3 := (pixels >>> 2) &&& 0x03
  let p4 := (pixels >>> 0) &&& 0x03
  (p1 <<< 0) ||| (p2 <<< 2) ||| (p3 <<< 4) ||| (p4 <<< 6)

/-- The data argument of `line`: either a byte source (the image pointer)
or the null pointer, in which case `fixed_value` is transmitted. -/
def line_byte (data : Option (Nat → Nat)) (fixed_value : Nat)
    (enc : Nat → Nat) (idx : Nat) : Nat :=
  match data with
  | some d => enc (d idx)
  | none => fixed_value

/-- The odd-pixel loop of `EPD_Class::line`:
`for (b = bytes_per_line; b > 0; --b)` transmitting `data[b - 1]`
(last byte of the line first). -/
def odd_bytes (data : Option (Nat → Nat)) (fixed_value : Nat)
    (stage : EPD_stage) : Nat → List Nat
  | 0 => []
  | b + 1 =>
    line_byte data fixed_value (encode_odd stage) b ::
      odd_bytes data fixed_value stage b

/-- The even-pixel loop of `EPD_Class::line`:
`for (b = 0; b < bytes_per_line; ++b)` transmitting `data[b]`. -/
def even_bytes (data : Option (Nat → Nat)) (fixed_value : Nat)
    (stage : EPD_stage) (bpl : Nat) : List Nat :=
  (List.range bpl).map (line_byte data fixed_value (encode_even stage))

/-- The scan-byte loop of `EPD_Class::line`:
`scan_pos = (lines_per_display - line - 1) / 4` (C `int` division,
truncating toward zero), `scan_shift = 2 * (line & 0x03)`, and one pass
over `bytes_per_scan` bytes emitting `0x03 << scan_shift` at `scan_pos`
and `0x00` elsewhere. -/
def scan_bytes (lpd : Nat) (bps : Nat) (lineIdx : Nat) : List Nat :=
  let scan_pos : Int := Int.tdiv ((lpd : Int) - (lineIdx : Int) - 1) 4
  let scan_shift : Nat := 2 * (lineIdx &&& 0x03)
  (List.range bps).map (fun b => if scan_pos = (b : Int) then 0x03 <<< scan_shift else 0x00)

/-- Modelled from the spec: the default `border_byte` argument of `line`
is declared in `EPD2.h`, which is not under `src/`; the spec's `end()`
description lists the three flush values as `0xff`, `0xaa`, `0x00`, the
third call passing the default, so the default border byte is `0x00`. -/
def line_border_byte_default : Nat := 0x00

/-- The byte payload of one `EPD_Class::line` transaction, in transmission
order: the `0x72` sub-command byte, the border byte, the odd-pixel bytes,
the scan bytes, then the even-pixel bytes. -/
def line_payload (size : EPD_size) (lineIdx : Nat) (data : Option (Nat → Nat))
    (fixed_value : Nat) (stage : EPD_stage) (border_byte : Nat) : List Nat :=
  [0x72, border_byte]
    ++ odd_bytes data fixed_value stage (bytes_per_line size)
    ++ scan_bytes (lines_per_display size) (bytes_per_scan size) lineIdx
    ++ even_bytes data fixed_value stage (bytes_per_line size)

/-- The arguments of one `EPD_Class::line` call made by a frame function:
the line index (`uint16_t`), whether an image pointer was passed, the byte
offset of that pointer into the image (`pos * bytes_per_line` for
`&image[pos * this->bytes_per_line]`), the fixed value, and the stage. -/
structure LineArgs where
  line : Nat
  hasData : Bool
  data_offset : Int
  fixed_value : Nat
  stage : EPD_stage
  deriving DecidableEq

/-- The C loop header `for (int line = step - block; line < total_lines + step;
line += step)` as the list of values taken by the loop variable, written with
a structural fuel so that it both terminates and evaluates in the kernel.
With `step ≥ 1` (true of every compensation band) the fuel chosen in
`line_starts` never runs out. -/
def line_starts_fuel (total step : Int) : Nat → Int → List Int
  | 0, _ => []
  | fuel + 1, lineV =>
    if lineV < total + step then lineV :: line_starts_fuel total step fuel (lineV + step)
    else []

/-- The values taken by the `line` loop variable of `frame_fixed_13` /
`frame_data_13`, starting at `step - block`. -/
def line_starts (total step block : Int) : List Int :=
  line_starts_fuel total step ((total + block).toNat + 1) (step - block)

/-- Parameter selection shared by `frame_fixed_13` and `frame_data_13`:
`EPD_inverse` (stage 1) takes the `stage1_*` triple, otherwise the
`stage3_*` triple; returns `(repeat, step, block)`. -/
def frame_13_params (comp : compensation_type) (stage : EPD_stage) : Int × Int × Int :=
  match stage with
  | EPD_inverse => (comp.stage1_repeat, comp.stage1_step, comp.stage1_block)
  | EPD_normal => (comp.stage3_repeat, comp.stage3_step, comp.stage3_block)

/-- The loop nest of `EPD_Class::frame_fixed_13` (outer pass `n`, `line`
loop, `offset` loop), emitting the `line()` call arguments in order.  The
pass counter `n` runs over `0 ≤ n < repeat`; the C test `n == repeat - 1`
is `n = r.toNat - 1` here (equivalent for the positive repeats of the
tables). -/
def frame_13_sweep_fixed (r step block total : Int) (value : Nat)
    (stage : EPD_stage) : List LineArgs :=
  (List.range r.toNat).flatMap (fun n =>
    (line_starts total step block).flatMap (fun lv =>
      (List.range block.toNat).map (fun (o : Nat) =>
        let pos := lv + (o : Int)
        if pos < 0 ∨ pos > total then ⟨0x7fff, false, 0, 0x00, EPD_normal⟩
        else if o = 0 ∧ n = r.toNat - 1 then ⟨pos.toNat, false, 0, 0x00, EPD_normal⟩
        else ⟨pos.toNat, false, 0, value, stage⟩)))

/-- The loop nest of `EPD_Class::frame_data_13`; identical to
`frame_13_sweep_fixed` except that the in-range non-settle branch passes
`&image[pos * bytes_per_line]` with `fixed_value = 0`. -/
def frame_13_sweep_data (r step block total bpl : Int)
    (stage : EPD_stage) : List LineArgs :=
  (List.range r.toNat).flatMap (fun n =>
    (line_starts total step block).flatMap (fun lv =>
      (List.range block.toNat).map (fun (o : Nat) =>
        let pos := lv + (o : Int)
        if pos < 0 ∨ pos > total then ⟨0x7fff, false, 0, 0x00, EPD_normal⟩
        else if o = 0 ∧ n = r.toNat - 1 then ⟨pos.toNat, false, 0, 0x00, EPD_normal⟩
        else ⟨pos.toNat, true, pos * bpl, 0, stage⟩)))

/-- `EPD_Class::frame_fixed_13`: selects `(repeat, step, block)` from the
active compensation band and `total_lines = lines_per_display`, then runs
the sweep. -/
def frame_fixed_13 (size : EPD_size) (temperature : Int) (value : Nat)
    (stage : EPD_stage) : List LineArgs :=
  let comp := (setFactor size temperature).2
  let p := frame_13_params comp stage
  frame_13_sweep_fixed p.1 p.2.1 p.2.2 (lines_per_display size) value stage

/-- `EPD_Class::frame_data_13`: as `frame_fixed_13` but reading the image. -/
def frame_data_13 (size : EPD_size) (temperature : Int)
    (stage : EPD_stage) : List LineArgs :=
  let comp := (setFactor size temperature).2
  let p := frame_13_params comp stage
  frame_13_sweep_data p.1 p.2.1 p.2.2 (lines_per_display size)
    (bytes_per_line size) stage

/-- The iteration space of the sweep: the `(n, offset, pos)` triples in
visit order, with the same loop bounds as the frame functions. -/
def sweep_iters (r step block total : Int) : List (Nat × Nat × Int) :=
  (List.range r.toNat).flatMap (fun n =>
    (line_starts total step block).flatMap (fun lv =>
      (List.range block.toNat).map (fun (o : Nat) => (n, o, lv + (o : Int)))))

/-- One visited position classified by the spec's policy wording. -/
inductive LineOp where
  | flush
  | settle (pos : Int)
  | real (pos : Int)
  deriving DecidableEq

/-- The per-position policy, written from the spec: out-of-range positions
give a no-op/flush line; block-offset 0 on the final repeat pass gives the
zero-value settle line; every other in-range position gives the real
value/image line. -/
def sweep_policy (r : Int) (total : Int) (n o : Nat) (pos : Int) : LineOp :=
  if pos < 0 ∨ pos > total then LineOp.flush
  else if o = 0 ∧ n = r.toNat - 1 then LineOp.settle pos
  else LineOp.real pos

/-- The `line()` arguments the spec's policy prescribes for
`frame_fixed_13`: flush = sentinel line with fixed `0x00` under the
normal stage, settle = the line with fixed `0x00` under the normal
stage, real = the line with the requested fixed value and stage. -/
def interp_fixed (value : Nat) (stage : EPD_stage) : LineOp → LineArgs
  | LineOp.flush => ⟨0x7fff, false, 0, 0x00, EPD_normal⟩
  | LineOp.settle pos => ⟨pos.toNat, false, 0, 0x00, EPD_normal⟩
  | LineOp.real pos => ⟨pos.toNat, false, 0, value, stage⟩

/-- The `line()` arguments the spec's policy prescribes for
`frame_data_13`: the real branch passes the image scanline at `pos`. -/
def interp_data (bpl : Int) (stage : EPD_stage) : LineOp → LineArgs
  | LineOp.flush => ⟨0x7fff, false, 0, 0x00, EPD_normal⟩
  | LineOp.settle pos => ⟨pos.toNat, false, 0, 0x00, EPD_normal⟩
  | LineOp.real pos => ⟨pos.toNat, true, pos * bpl, 0, stage⟩

end EPD2

namespace EPD2

open EPD_size EPD_stage EPD_status

/-- `ULONG_MAX` for the 32-bit `unsigned long` of the Arduino targets. -/
def ULONG_MAX : Nat := 2 ^ 32 - 1

/-- Reduction of an `unsigned long` value modulo `2^32`. -/
def u32 (n : Nat) : Nat := n % 2 ^ 32

/-- C `unsigned long` subtraction (wrapping). -/
def usub32 (a b : Nat) : Nat := (u32 a + 2 ^ 32 - u32 b) % 2 ^ 32

/-- Reinterpretation of an `unsigned long` bit pattern as a (two's
complement) `long`, as happens when the compound assignment
`stage_time -= ...` stores back into the signed `stage_time`. -/
def toLong (n : Nat) : Int :=
  if u32 n < 2 ^ 31 then (u32 n : Int) else (u32 n : Int) - 2 ^ 32

/-- Conversion of a `long` to `unsigned long` (modulo `2^32`). -/
def toULong (x : Int) : Nat := (x % (2 ^ 32 : Int)).toNat

/-- The `stage_time` update in the loop body of
`EPD_Class::frame_fixed_timed`: `stage_time -= t_end - t_start` when
`t_end > t_start`, and `stage_time -= t_start - t_end + 1 + ULONG_MAX`
otherwise, all in C `unsigned long` arithmetic with the result stored
back into the signed `long` `stage_time`. -/
def frame_fixed_timed_update (stage_time : Int) (t_start t_end : Nat) : Int :=
  if t_end > t_start then
    toLong (usub32 (toULong stage_time) (usub32 t_end t_start))
  else
    toLong (usub32 (toULong stage_time) ((usub32 t_start t_end + 1 + ULONG_MAX) % 2 ^ 32))

/-- Control pins of the driver. -/
inductive Pin where
  | PANEL_ON | BORDER | DISCHARGE | RESET | BUSY | EPD_CS
  deriving DecidableEq

/-- Observable actions of the driver toward the hardware, in program
order: pin writes, delays, bus on/off, the unbounded busy wait of
`begin`, framed sends and reads (a read records the controller's
response byte), and `line()` calls made by `end()`. -/
inductive Event where
  | pin (p : Pin) (high : Bool)
  | delay_ms (ms : Nat)
  | spi_on
  | spi_off
  | wait_busy
  | send (bytes : List Nat)
  | read (bytes : List Nat) (result : Nat)
  | line_call (args : LineArgs) (border : Nat)
  deriving DecidableEq

/-- The controller as seen through `SPI_read`: the two COG-ID responses,
the breakage-status response, the DC/DC status response of each
charge-pump attempt, and the DC/DC status response read during `end()`. -/
structure Controller where
  cog_id_first : Nat
  cog_id : Nat
  broken_panel : Nat
  dc_state : Nat → Nat
  dc_state_end : Nat

/-- `EPD_Class::power_off`: drop reset/panel-on/border, force the bus idle
before dropping chip-select, then pulse the discharge pin 10 times. -/
def power_off_events : List Event :=
  [Event.pin Pin.RESET false, Event.pin Pin.PANEL_ON false, Event.pin Pin.BORDER false,
   Event.spi_off, Event.pin Pin.EPD_CS false]
    ++ (List.range 10).flatMap (fun _ =>
        [Event.delay_ms 10, Event.pin Pin.DISCHARGE true,
         Event.delay_ms 10, Event.pin Pin.DISCHARGE false])

/-- One iteration of the charge-pump loop in `EPD_Class::begin`: enable
the positive pump, wait 240 ms, enable the negative pump, wait 40 ms,
enable the Vcom pump, wait 40 ms, then read the DC/DC state. -/
def pump_attempt_events (dc : Nat) : List Event :=
  [Event.send [0x70, 0x05], Event.send [0x72, 0x01], Event.delay_ms 240,
   Event.send [0x70, 0x05], Event.send [0x72, 0x03], Event.delay_ms 40,
   Event.send [0x70, 0x05], Event.send [0x72, 0x0f], Event.delay_ms 40,
   Event.send [0x70, 0x0f], Event.read [0x73, 0x00] dc]

/-- The `for (int i = 0; i < 4; ++i)` charge-pump loop of `begin`,
parameterized by the attempt index `i` and the remaining iteration count;
returns the final `dc_ok` flag and the emitted events.  The `break` when
`0x40 == (0x40 & dc_state)` stops the loop after the current attempt. -/
def dc_loop (dc_state : Nat → Nat) : Nat → Nat → Bool × List Event
  | _, 0 => (false, [])
  | i, k + 1 =>
    let dc := dc_state i
    if 0x40 = (0x40 &&& dc) then (true, pump_attempt_events dc)
    else
      let rest := dc_loop dc_state (i + 1) k
      (rest.1, pump_attempt_events dc ++ rest.2)

/-- The events of `EPD_Class::begin` up to and including the two COG-ID
reads (power-up pin sequence, delays, busy wait). -/
def begin_head_events (c : Controller) : List Event :=
  [Event.pin Pin.RESET false, Event.pin Pin.PANEL_ON false, Event.pin Pin.DISCHARGE false,
   Event.pin Pin.BORDER false, Event.pin Pin.EPD_CS false,
   Event.spi_on, Event.delay_ms 5, Event.pin Pin.PANEL_ON true, Event.delay_ms 10,
   Event.pin Pin.RESET true, Event.pin Pin.BORDER true, Event.pin Pin.EPD_CS true,
   Event.delay_ms 5, Event.pin Pin.RESET false, Event.delay_ms 5,
   Event.pin Pin.RESET true, Event.delay_ms 5, Event.wait_busy,
   Event.read [0x71, 0x00] c.cog_id_first, Event.read [0x71, 0x00] c.cog_id]

/-- The events of `begin` from the output-enable disable through the
driver-latch pulse and the 5 ms delay before the charge-pump loop
(taken only once the COG-ID and breakage checks have passed). -/
def begin_setup_events (size : EPD_size) (c : Controller) : List Event :=
  [Event.send [0x70, 0x02], Event.send [0x72, 0x40],
   Event.send [0x70, 0x0f], Event.read [0x73, 0x00] c.broken_panel,
   Event.send [0x70, 0x0b], Event.send [0x72, 0x02],
   Event.send [0x70, 0x01], Event.send (channel_select size),
   Event.send [0x70, 0x07], Event.send [0x72, 0xd1],
   Event.send [0x70, 0x08], Event.send [0x72, 0x02],
   Event.send [0x70, 0x09], Event.send [0x72, 0xc2],
   Event.send [0x70, 0x04], Event.send [0x72, 0x03],
   Event.send [0x70, 0x03], Event.send [0x72, 0x01],
   Event.send [0x70, 0x03], Event.send [0x72, 0x00],
   Event.delay_ms 5]

/-- `EPD_Class::begin`: the resulting `status` field and the event trace.
The breakage read happens inside `begin_setup_events` (its first four
events); the COG-ID check, breakage check and DC/DC check each set a
failure status, run `power_off` and return. -/
def begin_events (size : EPD_size) (c : Controller) : EPD_status × List Event :=
  let e0 := begin_head_events c
  if 0x02 ≠ (0x0f &&& c.cog_id) then
    (EPD_UNSUPPORTED_COG, e0 ++ power_off_events)
  else
    let e1 := e0 ++ (begin_setup_events size c).take 4
    if 0x00 = (0x80 &&& c.broken_panel) then
      (EPD_PANEL_BROKEN, e1 ++ power_off_events)
    else
      let e2 := e0 ++ begin_setup_events size c
      let dc := dc_loop c.dc_state 0 4
      let e3 := e2 ++ dc.2
      if !dc.1 then (EPD_DC_FAILED, e3 ++ power_off_events)
      else (EPD_OK, e3 ++ [Event.send [0x70, 0x02], Event.send [0x72, 0x40], Event.spi_off])

/-- `EPD_Class::end`: the resulting `status` (unchanged from `st` on
success) and the event trace.  The 2.7-inch panel gets the border-pin
pulse; every other size gets three sentinel-line writes with border
bytes `0xff`, `0xaa` and the default. -/
def end_events (size : EPD_size) (st : EPD_status) (c : Controller) :
    EPD_status × List Event :=
  let flush : List Event :=
    if size = EPD_2_7 then
      [Event.delay_ms 25, Event.pin Pin.BORDER false, Event.delay_ms 250,
       Event.pin Pin.BORDER true]
    else
      [Event.line_call ⟨0x7fff, false, 0, 0x00, EPD_normal⟩ 0xff, Event.delay_ms 40,
       Event.line_call ⟨0x7fff, false, 0, 0x00, EPD_normal⟩ 0xaa, Event.delay_ms 200,
       Event.line_call ⟨0x7fff, false, 0, 0x00, EPD_normal⟩ line_border_byte_default,
       Event.delay_ms 25]
  let e0 := flush ++ [Event.spi_on, Event.send [0x70, 0x0f],
                      Event.read [0x73, 0x00] c.dc_state_end]
  if 0x40 ≠ (0x40 &&& c.dc_state_end) then
    (EPD_DC_FAILED, e0 ++ power_off_events)
  else
    (st, e0 ++ [Event.send [0x70, 0x03], Event.send [0x72, 0x01],
                Event.send [0x70, 0x02], Event.send [0x72, 0x05],
                Event.send [0x70, 0x05], Event.send [0x72, 0x0e],
                Event.send [0x70, 0x05], Event.send [0x72, 0x02],
                Event.send [0x70, 0x05], Event.send [0x72, 0x00],
                Event.send [0x70, 0x07], Event.send [0x72, 0x0d],
                Event.send [0x70, 0x04], Event.send [0x72, 0x83],
                Event.delay_ms 120,
                Event.send [0x70, 0x04], Event.send [0x72, 0x00]]
            ++ power_off_events)

/-- The level of pin `p` after executing `events` starting from `init`. -/
def pin_state_after (events : List Event) (init : Pin → Bool) (p : Pin) : Bool :=
  events.foldl (fun s e =>
    match e with
    | Event.pin q v => if q = p then v else s
    | _ => s) (init p)

/-- Number of positive-charge-pump enables in a trace: occurrences of
`send [0x70, 0x05]` immediately followed by `send [0x72, 0x01]`.  No
other part of `begin`/`end` produces this adjacent pair. -/
def count_pump_enables : List Event → Nat
  | [] => 0
  | e :: rest =>
    (match e, rest with
     | Event.send a, Event.send b :: _ =>
       if a = [0x70, 0x05] ∧ b = [0x72, 0x01] then 1 else 0
     | _, _ => 0) + count_pump_enables rest

/-- `true` on the `line()`-call events of a trace. -/
def is_line_call : Event → Bool
  | Event.line_call _ _ => true
  | _ => false

/-- A controller whose DC/DC-ready bit never sets but which passes the
COG-ID and breakage checks (used as the concrete witness input). -/
def controller_dc_dead : Controller :=
  ⟨0x02, 0x02, 0x80, fun _ => 0x00, 0x00⟩

/-- A controller that answers `0x02` on both COG-ID reads and reports a
breakage status with bit `0x80` clear. -/
def controller_broken : Controller :=
  ⟨0x02, 0x02, 0x00, fun _ => 0x00, 0x00⟩

/-- A controller on the all-checks-pass path. -/
def controller_ok : Controller :=
  ⟨0x02, 0x02, 0x80, fun _ => 0x40, 0x40⟩

/-- The bit-pair reversal described by the spec for the even-pixel bytes:
2-bit pairs at positions 6, 4, 2, 0 are reordered to 0, 2, 4, 6. -/
def pair_reverse (y : Nat) : Nat :=
  (((y >>> 6) &&& 0x03) <<< 0) ||| (((y >>> 4) &&& 0x03) <<< 2) |||
    (((y >>> 2) &&& 0x03) <<< 4) ||| (((y >>> 0) &&& 0x03) <<< 6)

/-- The compensation table of the configured panel size. -/
def compensation_table : EPD_size → Nat → compensation_type
  | EPD_1_44 => compensation_144
  | EPD_2_0 => compensation_200
  | EPD_2_7 => compensation_270

end EPD2

namespace EPD2

open EPD_size EPD_stage EPD_status

/-! ### C6: temperature thresholds of `setFactor` -/

/-- C6: `setFactor` computes offset 0 for `t < 10`, offset 1 for
`10 ≤ t ≤ 40` (both boundary values included), offset 2 for `t > 40`,
and selects the compensation band of the configured panel size at that
offset; the default temperature argument is 25. -/
theorem setFactor_correct (size : EPD_size) (t : Int) :
    (t < 10 → (setFactor size t).1 = 0) ∧
    (10 ≤ t → t ≤ 40 → (setFactor size t).1 = 1) ∧
    (40 < t → (setFactor size t).1 = 2) ∧
    (setFactor size t).2 = compensation_table size (temperature_offset t) ∧
    setFactor_default_temperature = 25 := by
  have hoff : ∀ u : Int,
      (u < 10 → temperature_offset u = 0) ∧
      (10 ≤ u → u ≤ 40 → temperature_offset u = 1) ∧
      (40 < u → temperature_offset u = 2) := by
    intro u
    unfold temperature_offset
    refine ⟨fun h => by rw [if_pos h], fun h1 h2 => ?_, fun h => ?_⟩
    · rw [if_neg (by omega), if_neg (by omega)]
    · rw [if_neg (by omega), if_pos h]
  have hsel : (setFactor size t).1 = temperature_offset t ∧
      (setFactor size t).2 = compensation_table size (temperature_offset t) := by
    cases size <;> exact ⟨rfl, rfl⟩
  refine ⟨fun h => ?_, fun h1 h2 => ?_, fun h => ?_, hsel.2, rfl⟩
  · rw [hsel.1]; exact (hoff t).1 h
  · rw [hsel.1]; exact (hoff t).2.1 h1 h2
  · rw [hsel.1]; exact (hoff t).2.2 h

/-- Witness for `setFactor_correct` at the boundary temperature 10. -/
theorem setFactor_correct_witness :
    (10 : Int) ≤ 10 ∧ (10 : Int) ≤ 40 ∧ (setFactor EPD_1_44 10).1 = 1 :=
  ⟨by norm_num, by norm_num,
    (setFactor_correct EPD_1_44 10).2.1 (by norm_num) (by norm_num)⟩

/-! ### C2: scan-activation bytes of `line` -/

/-- C2: for every line index below `lines_per_display` the scan bytes
carry exactly one non-zero byte, `0x03 << (2 * (lineIndex mod 4))`,
located at byte index `(lines_per_display - lineIndex - 1) / 4`; for the
sentinel index `0x7FFF` every scan byte is zero. -/
theorem scan_activation_correct (size : EPD_size) :
    (∀ l : Nat, l < lines_per_display size →
      scan_bytes (lines_per_display size) (bytes_per_scan size) l =
        (List.range (bytes_per_scan size)).map
          (fun b => if b = (lines_per_display size - l - 1) / 4
            then 0x03 <<< (2 * (l % 4)) else 0x00) ∧
      ((scan_bytes (lines_per_display size) (bytes_per_scan size) l).filter
        (fun x => x != 0)).length = 1) ∧
    scan_bytes (lines_per_display size) (bytes_per_scan size) 0x7fff =
      List.replicate (bytes_per_scan size) 0x00 := by
  cases size <;> exact ⟨by decide, by decide⟩

/-- Witness for `scan_activation_correct` at the 2-inch panel, line 5. -/
theorem scan_activation_correct_witness :
    5 < lines_per_display EPD_2_0 ∧
    scan_bytes (lines_per_display EPD_2_0) (bytes_per_scan EPD_2_0) 5 =
      (List.range (bytes_per_scan EPD_2_0)).map
        (fun b => if b = (lines_per_display EPD_2_0 - 5 - 1) / 4
          then 0x03 <<< (2 * (5 % 4)) else 0x00) :=
  ⟨by norm_num [lines_per_display],
    ((scan_activation_correct EPD_2_0).1 5 (by norm_num [lines_per_display])).1⟩

/-! ### C3: odd-pixel encoding and transmission order -/

/-- The odd-pixel loop of `line` transmits the line's bytes from the last
byte backward to the first. -/
theorem odd_bytes_eq_map (d : Nat → Nat) (fixed : Nat) (stage : EPD_stage) :
    ∀ bpl : Nat, odd_bytes (some d) fixed stage bpl =
      (List.range bpl).map (fun i => encode_odd stage (d (bpl - 1 - i))) := by
  intro bpl
  induction bpl with
  | zero => rfl
  | succ b ih =>
    rw [List.range_succ_eq_map, List.map_cons, List.map_map]
    show encode_odd stage (d b) :: odd_bytes (some d) fixed stage b = _
    rw [ih]
    refine congrArg₂ List.cons ?_ ?_
    · simp
    · apply List.map_congr_left
      intro i _
      have h2 : b - 1 - i = b + 1 - 1 - (i + 1) := by omega
      simp [Function.comp_def, h2]

/-- C3: the odd-pixel byte is `0xAA | (x & 0x55)` under the normal stage
and `0xAA | ((x & 0x55) ^ 0x55)` under the inverse stage, and the
odd-pixel bytes scan the line from its last byte backward to its first. -/
theorem odd_pixel_encoding_correct (x : Nat) (d : Nat → Nat) (fixed : Nat)
    (stage : EPD_stage) (bpl : Nat) :
    encode_odd EPD_normal x = 0xaa ||| (x &&& 0x55) ∧
    encode_odd EPD_inverse x = 0xaa ||| ((x &&& 0x55) ^^^ 0x55) ∧
    odd_bytes (some d) fixed stage bpl =
      (List.range bpl).map (fun i => encode_odd stage (d (bpl - 1 - i))) :=
  ⟨rfl, rfl, odd_bytes_eq_map d fixed stage bpl⟩

/-! ### C4: even-pixel encoding and transmission order -/

/-- C4: the even-pixel byte masks the input with `0xAA`, applies the
stage-dependent shift formula, then reverses the four 2-bit pairs, and
the even-pixel bytes are scanned forward from the first byte of the
line. -/
theorem even_pixel_encoding_correct (x : Nat) (d : Nat → Nat) (fixed : Nat)
    (stage : EPD_stage) (bpl : Nat) :
    encode_even EPD_inverse x = pair_reverse (0xaa ||| (((x &&& 0xaa) ^^^ 0xaa) >>> 1)) ∧
    encode_even EPD_normal x = pair_reverse (0xaa ||| ((x &&& 0xaa) >>> 1)) ∧
    even_bytes (some d) fixed stage bpl =
      (List.range bpl).map (fun b => encode_even stage (d b)) :=
  ⟨rfl, rfl, rfl⟩

/-! ### C5: wraparound handling in `frame_fixed_timed` -/

/-- C5 (divergence): on a wrapped clock (start 4294967286, end 5, true
elapsed 15 ms) the code's update yields 495 from a remaining stage time
of 480 — it adds the elapsed time instead of subtracting it — while the
claimed overflow-safe subtraction would yield 465. -/
theorem frame_fixed_timed_wrap_bug :
    frame_fixed_timed_update 480 4294967286 5 = 495 ∧
    ((5 : Int) + (((ULONG_MAX : Nat) : Int) + 1) - 4294967286 = 15) ∧
    (480 - 15 : Int) = 465 ∧ (495 : Int) ≠ 465 := by
  refine ⟨by decide, by decide, by decide, by decide⟩

/-! ### C8: `begin` with a broken-panel controller -/

/-- C8: with COG-ID `0x02` on both reads and a breakage status whose bit
`0x80` is clear, `begin` sets `EPD_PANEL_BROKEN`, runs `power_off` (the
trace after the first 24 events is exactly the `power_off` trace), and
leaves reset, panel-on, border, chip-select and discharge low. -/
theorem begin_broken_panel_scenario :
    (begin_events EPD_2_0 controller_broken).1 = EPD_PANEL_BROKEN ∧
    (begin_events EPD_2_0 controller_broken).2.drop 24 = power_off_events ∧
    pin_state_after (begin_events EPD_2_0 controller_broken).2 (fun _ => true) Pin.RESET = false ∧
    pin_state_after (begin_events EPD_2_0 controller_broken).2 (fun _ => true) Pin.PANEL_ON = false ∧
    pin_state_after (begin_events EPD_2_0 controller_broken).2 (fun _ => true) Pin.BORDER = false ∧
    pin_state_after (begin_events EPD_2_0 controller_broken).2 (fun _ => true) Pin.EPD_CS = false ∧
    pin_state_after (begin_events EPD_2_0 controller_broken).2 (fun _ => true) Pin.DISCHARGE = false := by
  refine ⟨by decide, by decide, by decide, by decide, by decide, by decide, by decide⟩

/-! ### C10: `frame_data_13` reads one scanline past the image -/

/-- C10 (divergence): on the 1.44-inch panel at the default temperature
band, `frame_data_13` under stage 1 makes a data call for scanline 96 —
equal to `lines_per_display`, not strictly below it — whose image byte
offset `96 * bytes_per_line = 1536` is exactly the length of a
minimal-size frame buffer, so the call reads bytes past its end. -/
theorem frame_data_13_out_of_bounds :
    (⟨96, true, 1536, 0, EPD_inverse⟩ : LineArgs) ∈
      frame_data_13 EPD_1_44 25 EPD_inverse ∧
    96 = lines_per_display EPD_1_44 ∧
    1536 = lines_per_display EPD_1_44 * bytes_per_line EPD_1_44 := by
  refine ⟨by decide, by decide, by decide⟩

/-! ### C9: the flush performed by `end` -/

/-- C9 (counterexample): on the 2-inch panel, `end` makes exactly three
`line()` calls, all with the sentinel index and fixed value `0x00`
(their border bytes are `0xff`, `0xaa`, `0x00`) — not three full-frame
fixed-pattern writes with pixel values `0xff`, `0xaa`, `0x00`, which
would make `3 * lines_per_display` calls including calls with fixed
value `0xff`. -/
theorem end_flush_counterexample :
    (end_events EPD_2_0 EPD_OK controller_ok).2.countP is_line_call = 3 ∧
    (end_events EPD_2_0 EPD_OK controller_ok).2.filter is_line_call =
      [Event.line_call ⟨0x7fff, false, 0, 0x00, EPD_normal⟩ 0xff,
       Event.line_call ⟨0x7fff, false, 0, 0x00, EPD_normal⟩ 0xaa,
       Event.line_call ⟨0x7fff, false, 0, 0x00, EPD_normal⟩ 0x00] ∧
    (3 : Nat) ≠ 3 * lines_per_display EPD_2_0 := by
  refine ⟨by decide, by decide, by decide⟩

/-- C9 (amended): for panels other than the 2.7-inch model, `end` begins
its teardown with three single sentinel-line writes (line `0x7FFF`, no
data, fixed value `0x00`, normal stage) whose border bytes are `0xff`,
`0xaa` and the default border byte, followed respectively by delays of
40 ms, 200 ms and 25 ms; for the 2.7-inch model a border-pin pulse
(25 ms, border low for 250 ms, then border high) substitutes. -/
theorem end_teardown_amended (size : EPD_size) (st : EPD_status)
    (c : Controller) (h : size ≠ EPD_2_7) :
    (end_events size st c).2.take 6 =
      [Event.line_call ⟨0x7fff, false, 0, 0x00, EPD_normal⟩ 0xff, Event.delay_ms 40,
       Event.line_call ⟨0x7fff, false, 0, 0x00, EPD_normal⟩ 0xaa, Event.delay_ms 200,
       Event.line_call ⟨0x7fff, false, 0, 0x00, EPD_normal⟩ line_border_byte_default,
       Event.delay_ms 25] ∧
    (end_events EPD_2_7 st c).2.take 4 =
      [Event.delay_ms 25, Event.pin Pin.BORDER false, Event.delay_ms 250,
       Event.pin Pin.BORDER true] := by
  constructor
  · by_cases hdc : 0x40 ≠ (0x40 &&& c.dc_state_end) <;>
      cases size <;>
        first
          | exact absurd rfl h
          | simp [end_events, hdc]
  · by_cases hdc : 0x40 ≠ (0x40 &&& c.dc_state_end) <;> simp [end_events, hdc]

/-! ### C1: the repeat/step/block sweep of `frame_fixed_13` / `frame_data_13` -/

/-- Membership in the loop-variable list: every value reachable from the
start by whole steps that is below the loop bound is visited, provided
the fuel exceeds the remaining distance. -/
theorem mem_line_starts_fuel (total step : Int) (hstep : 0 < step) :
    ∀ (fuel : Nat) (a lv : Int), a ≤ lv → lv < total + step →
      step ∣ (lv - a) → (total + step - a).toNat < fuel →
      lv ∈ line_starts_fuel total step fuel a := by
  intro fuel
  induction fuel with
  | zero => intro a lv _ _ _ hf; exact absurd hf (Nat.not_lt_zero _)
  | succ f ih =>
    intro a lv hale hlt hdvd hf
    have ha : a < total + step := lt_of_le_of_lt hale hlt
    simp only [line_starts_fuel, if_pos ha]
    rcases eq_or_lt_of_le hale with heq | hlt2
    · exact heq ▸ List.mem_cons_self _ _
    · refine List.mem_cons_of_mem _ (ih (a + step) lv ?_ hlt ?_ ?_)
      · have hpos : 0 < lv - a := by omega
        have := Int.le_of_dvd hpos hdvd
        omega
      · have he : lv - (a + step) = (lv - a) - step := by ring
        rw [he]
        exact dvd_sub hdvd dvd_rfl
      · omega

/-- Membership in the `line` loop of the sweep. -/
theorem mem_line_starts (total step block lv : Int) (hstep : 0 < step)
    (h1 : step - block ≤ lv) (h2 : lv < total + step)
    (hdvd : step ∣ (lv - (step - block))) :
    lv ∈ line_starts total step block := by
  apply mem_line_starts_fuel total step hstep _ _ _ h1 h2 hdvd
  omega

/-- Coverage of the sweep's positions: with `0 < step` and
`2 * step ≤ block + 1` (true of every compensation band), every line
index in `[0, total)` occurs as `lv + o` for some visited loop value
`lv` and block offset `o`. -/
theorem sweep_covered (total step block l : Int) (hstep : 0 < step)
    (hblock : 2 * step ≤ block + 1) (hl0 : 0 ≤ l) (hl : l < total) :
    ∃ lv ∈ line_starts total step block, ∃ o : Nat,
      o < block.toNat ∧ lv + (o : Int) = l := by
  have hr0 : 0 ≤ (l - (step - block)) % step := Int.emod_nonneg _ (by omega)
  have hrs : (l - (step - block)) % step < step := Int.emod_lt_of_pos _ hstep
  refine ⟨l - (l - (step - block)) % step, ?_, ((l - (step - block)) % step).toNat, ?_, ?_⟩
  · apply mem_line_starts total step block _ hstep (by omega) (by omega)
    have hdm := Int.ediv_add_emod (l - (step - block)) step
    have he : l - (l - (step - block)) % step - (step - block) =
        step * ((l - (step - block)) / step) := by omega
    rw [he]
    exact dvd_mul_right _ _
  · omega
  · omega

/-- Coverage lifted to `frame_13_sweep_fixed`: the call list visits every
line index in `[0, total)`. -/
theorem frame_13_sweep_fixed_covers (r s b total : Int) (value : Nat)
    (stage : EPD_stage) (l : Int) (hstep : 0 < s) (hblock : 2 * s ≤ b + 1)
    (hrep : 1 ≤ r) (hl0 : 0 ≤ l) (hl : l < total) :
    ∃ c ∈ frame_13_sweep_fixed r s b total value stage, c.line = l.toNat := by
  obtain ⟨lv, hlv, o, ho, hpos⟩ := sweep_covered total s b l hstep hblock hl0 hl
  have hmem : (if lv + (o : Int) < 0 ∨ lv + (o : Int) > total then
        (⟨0x7fff, false, 0, 0x00, EPD_normal⟩ : LineArgs)
      else if o = 0 ∧ (0 : Nat) = r.toNat - 1 then
        ⟨(lv + (o : Int)).toNat, false, 0, 0x00, EPD_normal⟩
      else ⟨(lv + (o : Int)).toNat, false, 0, value, stage⟩) ∈
      frame_13_sweep_fixed r s b total value stage := by
    unfold frame_13_sweep_fixed
    refine List.mem_flatMap.mpr ⟨0, List.mem_range.mpr (by omega), ?_⟩
    refine List.mem_flatMap.mpr ⟨lv, hlv, ?_⟩
    exact List.mem_map.mpr ⟨o, List.mem_range.mpr ho, rfl⟩
  refine ⟨_, hmem, ?_⟩
  rw [if_neg (by omega)]
  by_cases h2 : o = 0 ∧ (0 : Nat) = r.toNat - 1
  · rw [if_pos h2]
    show (lv + (o : Int)).toNat = l.toNat
    rw [hpos]
  · rw [if_neg h2]
    show (lv + (o : Int)).toNat = l.toNat
    rw [hpos]

/-- Coverage lifted to `frame_13_sweep_data`. -/
theorem frame_13_sweep_data_covers (r s b total bpl : Int)
    (stage : EPD_stage) (l : Int) (hstep : 0 < s) (hblock : 2 * s ≤ b + 1)
    (hrep : 1 ≤ r) (hl0 : 0 ≤ l) (hl : l < total) :
    ∃ c ∈ frame_13_sweep_data r s b total bpl stage, c.line = l.toNat := by
  obtain ⟨lv, hlv, o, ho, hpos⟩ := sweep_covered total s b l hstep hblock hl0 hl
  have hmem : (if lv + (o : Int) < 0 ∨ lv + (o : Int) > total then
        (⟨0x7fff, false, 0, 0x00, EPD_normal⟩ : LineArgs)
      else if o = 0 ∧ (0 : Nat) = r.toNat - 1 then
        ⟨(lv + (o : Int)).toNat, false, 0, 0x00, EPD_normal⟩
      else ⟨(lv + (o : Int)).toNat, true, (lv + (o : Int)) * bpl, 0, stage⟩) ∈
      frame_13_sweep_data r s b total bpl stage := by
    unfold frame_13_sweep_data
    refine List.mem_flatMap.mpr ⟨0, List.mem_range.mpr (by omega), ?_⟩
    refine List.mem_flatMap.mpr ⟨lv, hlv, ?_⟩
    exact List.mem_map.mpr ⟨o, List.mem_range.mpr ho, rfl⟩
  refine ⟨_, hmem, ?_⟩
  rw [if_neg (by omega)]
  by_cases h2 : o = 0 ∧ (0 : Nat) = r.toNat - 1
  · rw [if_pos h2]
    show (lv + (o : Int)).toNat = l.toNat
    rw [hpos]
  · rw [if_neg h2]
    show (lv + (o : Int)).toNat = l.toNat
    rw [hpos]

/-- `frame_13_sweep_fixed` is the spec's per-position policy mapped over
the iteration space. -/
theorem frame_13_sweep_fixed_policy (r s b total : Int) (value : Nat)
    (stage : EPD_stage) :
    frame_13_sweep_fixed r s b total value stage =
      (sweep_iters r s b total).map
        (fun x => interp_fixed value stage (sweep_policy r total x.1 x.2.1 x.2.2)) := by
  unfold frame_13_sweep_fixed sweep_iters
  rw [List.map_flatMap]
  congr 1
  funext n
  rw [List.map_flatMap]
  congr 1
  funext lv
  rw [List.map_map]
  apply List.map_congr_left
  intro o _
  show _ = interp_fixed value stage (sweep_policy r total n o (lv + (o : Int)))
  by_cases h1 : lv + (o : Int) < 0 ∨ lv + (o : Int) > total
  · simp [sweep_policy, interp_fixed, h1]
  · by_cases h2 : o = 0 ∧ n = r.toNat - 1
    · obtain ⟨ho0, hn⟩ := h2
      subst ho0
      subst hn
      simp only [Nat.cast_zero, add_zero] at h1
      simp [sweep_policy, interp_fixed, h1]
    · simp [sweep_policy, interp_fixed, h1, h2]

/-- `frame_13_sweep_data` is the spec's per-position policy mapped over
the iteration space. -/
theorem frame_13_sweep_data_policy (r s b total bpl : Int)
    (stage : EPD_stage) :
    frame_13_sweep_data r s b total bpl stage =
      (sweep_iters r s b total).map
        (fun x => interp_data bpl stage (sweep_policy r total x.1 x.2.1 x.2.2)) := by
  unfold frame_13_sweep_data sweep_iters
  rw [List.map_flatMap]
  congr 1
  funext n
  rw [List.map_flatMap]
  congr 1
  funext lv
  rw [List.map_map]
  apply List.map_congr_left
  intro o _
  show _ = interp_data bpl stage (sweep_policy r total n o (lv + (o : Int)))
  by_cases h1 : lv + (o : Int) < 0 ∨ lv + (o : Int) > total
  · simp [sweep_policy, interp_data, h1]
  · by_cases h2 : o = 0 ∧ n = r.toNat - 1
    · obtain ⟨ho0, hn⟩ := h2
      subst ho0
      subst hn
      simp only [Nat.cast_zero, add_zero] at h1
      simp [sweep_policy, interp_data, h1]
    · simp [sweep_policy, interp_data, h1, h2]

/-- The offset computed by `temperature_offset` is 0, 1 or 2. -/
theorem temperature_offset_cases (t : Int) :
    temperature_offset t = 0 ∨ temperature_offset t = 1 ∨ temperature_offset t = 2 := by
  unfold temperature_offset
  split_ifs <;> simp

/-- Every compensation band has a positive step, `2 * step ≤ block + 1`,
and at least one repeat pass, for both the stage-1 and stage-3 triples. -/
theorem frame_13_params_ok (size : EPD_size) (t : Int) (stage : EPD_stage) :
    0 < (frame_13_params (setFactor size t).2 stage).2.1 ∧
    2 * (frame_13_params (setFactor size t).2 stage).2.1 ≤
      (frame_13_params (setFactor size t).2 stage).2.2 + 1 ∧
    1 ≤ (frame_13_params (setFactor size t).2 stage).1 := by
  rcases temperature_offset_cases t with h | h | h <;>
    cases size <;> cases stage <;>
      simp [setFactor, h, frame_13_params,
        compensation_144, compensation_200, compensation_270]

/-- C1: for every panel size, temperature and stage, the sweep of
`frame_fixed_13` and of `frame_data_13` visits every line index in
`[0, lines_per_display)` at least once, and each visited position is
handled by the spec's policy: out-of-range positions give the
no-op/flush line, block-offset 0 on the final repeat pass gives the
zero-value blanking line, every other in-range position gives the real
fixed value or the corresponding image scanline under the requested
stage. -/
theorem frame_13_sweep_correct (size : EPD_size) (t : Int) (value : Nat)
    (stage : EPD_stage) :
    (∀ l : Int, 0 ≤ l → l < (lines_per_display size : Int) →
      (∃ c ∈ frame_fixed_13 size t value stage, c.line = l.toNat) ∧
      (∃ c ∈ frame_data_13 size t stage, c.line = l.toNat)) ∧
    frame_fixed_13 size t value stage =
      (sweep_iters (frame_13_params (setFactor size t).2 stage).1
          (frame_13_params (setFactor size t).2 stage).2.1
          (frame_13_params (setFactor size t).2 stage).2.2
          (lines_per_display size)).map
        (fun x => interp_fixed value stage
          (sweep_policy (frame_13_params (setFactor size t).2 stage).1
            (lines_per_display size) x.1 x.2.1 x.2.2)) ∧
    frame_data_13 size t stage =
      (sweep_iters (frame_13_params (setFactor size t).2 stage).1
          (frame_13_params (setFactor size t).2 stage).2.1
          (frame_13_params (setFactor size t).2 stage).2.2
          (lines_per_display size)).map
        (fun x => interp_data (bytes_per_line size) stage
          (sweep_policy (frame_13_params (setFactor size t).2 stage).1
            (lines_per_display size) x.1 x.2.1 x.2.2)) := by
  obtain ⟨hstep, hblock, hrep⟩ := frame_13_params_ok size t stage
  refine ⟨fun l hl0 hl => ⟨?_, ?_⟩, ?_, ?_⟩
  · exact frame_13_sweep_fixed_covers _ _ _ _ value stage l hstep hblock hrep hl0 hl
  · exact frame_13_sweep_data_covers _ _ _ _ _ stage l hstep hblock hrep hl0 hl
  · exact frame_13_sweep_fixed_policy _ _ _ _ value stage
  · exact frame_13_sweep_data_policy _ _ _ _ _ stage

/-- Witness for `frame_13_sweep_correct` on the 2-inch panel at the
default temperature, line 0. -/
theorem frame_13_sweep_correct_witness :
    (0 : Int) ≤ 0 ∧ (0 : Int) < (lines_per_display EPD_2_0 : Int) ∧
    (∃ c ∈ frame_fixed_13 EPD_2_0 25 0xaa EPD_inverse, c.line = (0 : Int).toNat) :=
  ⟨le_refl 0, by norm_num [lines_per_display],
    ((frame_13_sweep_correct EPD_2_0 25 0xaa EPD_inverse).1 0 (le_refl 0)
      (by norm_num [lines_per_display])).1⟩

/-! ### C7: charge-pump bring-up retry in `begin` -/

/-- Unfolding of one failed charge-pump attempt. -/
theorem dc_loop_not_ready (ds : Nat → Nat) (i k : Nat)
    (h : ¬(0x40 = (0x40 &&& ds i))) :
    dc_loop ds i (k + 1) =
      ((dc_loop ds (i + 1) k).1,
        pump_attempt_events (ds i) ++ (dc_loop ds (i + 1) k).2) := by
  simp only [dc_loop, if_neg h]

/-- Unfolding of a successful charge-pump attempt: the `break`. -/
theorem dc_loop_ready (ds : Nat → Nat) (i k : Nat)
    (h : 0x40 = (0x40 &&& ds i)) :
    dc_loop ds i (k + 1) = (true, pump_attempt_events (ds i)) := by
  simp only [dc_loop, if_pos h]

/-- Each charge-pump attempt contributes exactly one positive-pump
enable to the trace. -/
theorem count_pump_enables_attempt (d : Nat) (l : List Event) :
    count_pump_enables (pump_attempt_events d ++ l) =
      1 + count_pump_enables l := by
  simp [pump_attempt_events, count_pump_enables]

/-- The events of `begin` before the charge-pump loop contain no
positive-pump enable. -/
theorem count_pump_enables_prelude (size : EPD_size) (c : Controller)
    (l : List Event) :
    count_pump_enables (begin_head_events c ++ (begin_setup_events size c ++ l)) =
      count_pump_enables l := by
  cases size <;>
    simp [begin_head_events, begin_setup_events, channel_select, count_pump_enables]

/-- `power_off` contains no positive-pump enable. -/
theorem count_pump_enables_power_off : count_pump_enables power_off_events = 0 := by
  decide

/-- The trailing output-enable events of a successful `begin` contain no
positive-pump enable. -/
theorem count_pump_enables_ok_tail :
    count_pump_enables
      [Event.send [0x70, 0x02], Event.send [0x72, 0x40], Event.spi_off] = 0 := by
  decide

/-- C7: past the COG-ID and breakage checks, the charge-pump bring-up
makes at most 4 attempts, each enabling the positive, negative and Vcom
pumps with 240 ms / 40 ms / 40 ms delays before polling bit `0x40`
(`pump_attempt_events`).  If the bit never sets, `begin` reports
`EPD_DC_FAILED` after exactly 4 pump-enable cycles and ends in
`power_off`; the first ready attempt breaks the loop, leaving `k + 1`
pump-enable cycles when attempt `k` is the first to report ready. -/
theorem begin_charge_pump_retry (size : EPD_size) (c : Controller)
    (hid : 0x02 = (0x0f &&& c.cog_id))
    (hbp : ¬(0x00 = (0x80 &&& c.broken_panel))) :
    ((∀ i, i < 4 → ¬(0x40 = (0x40 &&& c.dc_state i))) →
      (begin_events size c).1 = EPD_DC_FAILED ∧
      (begin_events size c).2 =
        begin_head_events c ++
          (begin_setup_events size c ++
            (pump_attempt_events (c.dc_state 0) ++
              (pump_attempt_events (c.dc_state 1) ++
                (pump_attempt_events (c.dc_state 2) ++
                  (pump_attempt_events (c.dc_state 3) ++ power_off_events))))) ∧
      count_pump_enables (begin_events size c).2 = 4) ∧
    (∀ k, k < 4 → (∀ j, j < k → ¬(0x40 = (0x40 &&& c.dc_state j))) →
      (0x40 = (0x40 &&& c.dc_state k)) →
      (begin_events size c).1 = EPD_OK ∧
      count_pump_enables (begin_events size c).2 = k + 1) := by
  have hid' : ¬(0x02 ≠ (0x0f &&& c.cog_id)) := not_not_intro hid
  constructor
  · intro hnever
    have e0 : dc_loop c.dc_state 0 4 =
        ((dc_loop c.dc_state 1 3).1,
          pump_attempt_events (c.dc_state 0) ++ (dc_loop c.dc_state 1 3).2) :=
      dc_loop_not_ready c.dc_state 0 3 (hnever 0 (by norm_num))
    have e1 : dc_loop c.dc_state 1 3 =
        ((dc_loop c.dc_state 2 2).1,
          pump_attempt_events (c.dc_state 1) ++ (dc_loop c.dc_state 2 2).2) :=
      dc_loop_not_ready c.dc_state 1 2 (hnever 1 (by norm_num))
    have e2 : dc_loop c.dc_state 2 2 =
        ((dc_loop c.dc_state 3 1).1,
          pump_attempt_events (c.dc_state 2) ++ (dc_loop c.dc_state 3 1).2) :=
      dc_loop_not_ready c.dc_state 2 1 (hnever 2 (by norm_num))
    have e3 : dc_loop c.dc_state 3 1 =
        ((dc_loop c.dc_state 4 0).1,
          pump_attempt_events (c.dc_state 3) ++ (dc_loop c.dc_state 4 0).2) :=
      dc_loop_not_ready c.dc_state 3 0 (hnever 3 (by norm_num))
    have hloop : dc_loop c.dc_state 0 4 =
        (false,
          pump_attempt_events (c.dc_state 0) ++
            (pump_attempt_events (c.dc_state 1) ++
              (pump_attempt_events (c.dc_state 2) ++
                (pump_attempt_events (c.dc_state 3) ++ [])))) := by
      rw [e0, e1, e2, e3]
      simp [dc_loop]
    have htr : (begin_events size c).2 =
        begin_head_events c ++
          (begin_setup_events size c ++
            (pump_attempt_events (c.dc_state 0) ++
              (pump_attempt_events (c.dc_state 1) ++
                (pump_attempt_events (c.dc_state 2) ++
                  (pump_attempt_events (c.dc_state 3) ++ power_off_events))))) := by
      simp [begin_events, hid', hbp, hloop]
    refine ⟨?_, htr, ?_⟩
    · simp [begin_events, hid', hbp, hloop]
    · rw [htr, count_pump_enables_prelude]
      simp [count_pump_enables_attempt, count_pump_enables_power_off]
  · intro k hk hmin hready
    have hstatus_count : ∀ tr : List Event,
        (begin_events size c).2 = begin_head_events c ++
          (begin_setup_events size c ++ tr) →
        count_pump_enables tr = k + 1 →
        (begin_events size c).1 = EPD_OK →
        (begin_events size c).1 = EPD_OK ∧
          count_pump_enables (begin_events size c).2 = k + 1 := by
      intro tr h1 h2 h3
      refine ⟨h3, ?_⟩
      rw [h1, count_pump_enables_prelude, h2]
    interval_cases k
    · have hloop : dc_loop c.dc_state 0 4 =
          (true, pump_attempt_events (c.dc_state 0)) :=
        dc_loop_ready c.dc_state 0 3 hready
      refine hstatus_count
          (pump_attempt_events (c.dc_state 0) ++ [Event.send [0x70, 0x02], Event.send [0x72, 0x40], Event.spi_off]) ?_ ?_ ?_
      · simp [begin_events, hid', hbp, hloop]
      · simp [count_pump_enables_attempt, count_pump_enables_ok_tail]
      · simp [begin_events, hid', hbp, hloop]
    · have hloop : dc_loop c.dc_state 0 4 =
          (true,
            pump_attempt_events (c.dc_state 0) ++
              pump_attempt_events (c.dc_state 1)) := by
        have e0 : dc_loop c.dc_state 0 4 =
            ((dc_loop c.dc_state 1 3).1,
              pump_attempt_events (c.dc_state 0) ++ (dc_loop c.dc_state 1 3).2) :=
          dc_loop_not_ready c.dc_state 0 3 (hmin 0 (by norm_num))
        rw [e0, dc_loop_ready c.dc_state 1 2 hready]
      refine hstatus_count
          (pump_attempt_events (c.dc_state 0) ++ (pump_attempt_events (c.dc_state 1) ++ [Event.send [0x70, 0x02], Event.send [0x72, 0x40], Event.spi_off])) ?_ ?_ ?_
      · simp [begin_events, hid', hbp, hloop, List.append_assoc]
      · simp [count_pump_enables_attempt, count_pump_enables_ok_tail,
          List.append_assoc]
      · simp [begin_events, hid', hbp, hloop]
    · have hloop : dc_loop c.dc_state 0 4 =
          (true,
            pump_attempt_events (c.dc_state 0) ++
              (pump_attempt_events (c.dc_state 1) ++
                pump_attempt_events (c.dc_state 2))) := by
        have e0 : dc_loop c.dc_state 0 4 =
            ((dc_loop c.dc_state 1 3).1,
              pump_attempt_events (c.dc_state 0) ++ (dc_loop c.dc_state 1 3).2) :=
          dc_loop_not_ready c.dc_state 0 3 (hmin 0 (by norm_num))
        have e1 : dc_loop c.dc_state 1 3 =
            ((dc_loop c.dc_state 2 2).1,
              pump_attempt_events (c.dc_state 1) ++ (dc_loop c.dc_state 2 2).2) :=
          dc_loop_not_ready c.dc_state 1 2 (hmin 1 (by norm_num))
        rw [e0, e1, dc_loop_ready c.dc_state 2 1 hready]
      refine hstatus_count
          (pump_attempt_events (c.dc_state 0) ++ (pump_attempt_events (c.dc_state 1) ++ (pump_attempt_events (c.dc_state 2) ++ [Event.send [0x70, 0x02], Event.send [0x72, 0x40], Event.spi_off]))) ?_ ?_ ?_
      · simp [begin_events, hid', hbp, hloop, List.append_assoc]
      · simp [count_pump_enables_attempt, count_pump_enables_ok_tail,
          List.append_assoc]
      · simp [begin_events, hid', hbp, hloop]
    · have hloop : dc_loop c.dc_state 0 4 =
          (true,
            pump_attempt_events (c.dc_state 0) ++
              (pump_attempt_events (c.dc_state 1) ++
                (pump_attempt_events (c.dc_state 2) ++
                  pump_attempt_events (c.dc_state 3)))) := by
        have e0 : dc_loop c.dc_state 0 4 =
            ((dc_loop c.dc_state 1 3).1,
              pump_attempt_events (c.dc_state 0) ++ (dc_loop c.dc_state 1 3).2) :=
          dc_loop_not_ready c.dc_state 0 3 (hmin 0 (by norm_num))
        have e1 : dc_loop c.dc_state 1 3 =
            ((dc_loop c.dc_state 2 2).1,
              pump_attempt_events (c.dc_state 1) ++ (dc_loop c.dc_state 2 2).2) :=
          dc_loop_not_ready c.dc_state 1 2 (hmin 1 (by norm_num))
        have e2 : dc_loop c.dc_state 2 2 =
            ((dc_loop c.dc_state 3 1).1,
              pump_attempt_events (c.dc_state 2) ++ (dc_loop c.dc_state 3 1).2) :=
          dc_loop_not_ready c.dc_state 2 1 (hmin 2 (by norm_num))
        rw [e0, e1, e2, dc_loop_ready c.dc_state 3 0 hready]
      refine hstatus_count
          (pump_attempt_events (c.dc_state 0) ++ (pump_attempt_events (c.dc_state 1) ++ (pump_attempt_events (c.dc_state 2) ++ (pump_attempt_events (c.dc_state 3) ++ [Event.send [0x70, 0x02], Event.send [0x72, 0x40], Event.spi_off])))) ?_ ?_ ?_
      · simp [begin_events, hid', hbp, hloop, List.append_assoc]
      · simp [count_pump_enables_attempt, count_pump_enables_ok_tail,
          List.append_assoc]
      · simp [begin_events, hid', hbp, hloop]

/-- Witness for `begin_charge_pump_retry` on a controller whose DC/DC
bit never sets. -/
theorem begin_charge_pump_retry_witness :
    (0x02 = (0x0f &&& controller_dc_dead.cog_id)) ∧
    ¬(0x00 = (0x80 &&& controller_dc_dead.broken_panel)) ∧
    (begin_events EPD_2_0 controller_dc_dead).1 = EPD_DC_FAILED ∧
    count_pump_enables (begin_events EPD_2_0 controller_dc_dead).2 = 4 :=
  ⟨by decide, by decide,
    ((begin_charge_pump_retry EPD_2_0 controller_dc_dead (by decide) (by decide)).1
      (by decide)).1,
    ((begin_charge_pump_retry EPD_2_0 controller_dc_dead (by decide) (by decide)).1
      (by decide)).2.2⟩

/-- Witness for `end_teardown_amended` on the 2-inch panel. -/
theorem end_teardown_amended_witness :
    EPD_2_0 ≠ EPD_2_7 ∧
    (end_events EPD_2_0 EPD_OK controller_ok).2.take 6 =
      [Event.line_call ⟨0x7fff, false, 0, 0x00, EPD_normal⟩ 0xff, Event.delay_ms 40,
       Event.line_call ⟨0x7fff, false, 0, 0x00, EPD_normal⟩ 0xaa, Event.delay_ms 200,
       Event.line_call ⟨0x7fff, false, 0, 0x00, EPD_normal⟩ line_border_byte_default,
       Event.delay_ms 25] :=
  ⟨by decide, (end_teardown_amended EPD_2_0 EPD_OK controller_ok (by decide)).1⟩

end EPD2
